import Mathlib

/-!
Verification development for the asterdex-sdk TypeScript client library.

Each definition below is a shallow embedding of a function of the repository:
`SignatureAuth.createQueryString` (src/auth/signature.ts), the Web3 nonce
generator and credential validators (src/auth/web3signature.ts), the
`RateLimiter` and `HttpClient` retry loop (src/utils/http.ts), the retry
classification helpers (src/errors/errors.ts), and the
`AsterWebSocketClient` stream connection state machine (websocket client
module).  JavaScript runtime behaviour that the code relies on (string
coercion, `encodeURIComponent`, `localeCompare`, `Set` insertion order,
truthiness) is modelled explicitly; each model is documented at its
definition site.
-/

/-! ## JavaScript value model for request parameters

The TypeScript code passes `Record<string, any>` parameter bags.  Only the
value shapes actually used by the SDK are modelled: `undefined`, `null`,
strings, integers and booleans.  An object is modelled as its entry list
(`Object.entries` order, i.e. insertion order for string keys). -/

inductive ParamValue where
  | undef : ParamValue
  | pnull : ParamValue
  | str (s : String) : ParamValue
  | num (n : Int) : ParamValue
  | boolean (b : Bool) : ParamValue
deriving DecidableEq, Repr

/-- JavaScript `String(value)` coercion for the modelled value shapes. -/
def ParamValue.jsString : ParamValue → String
  | .undef => "undefined"
  | .pnull => "null"
  | .str s => s
  | .num n => toString n
  | .boolean b => cond b "true" "false"

/-- The filter used by `createQueryString`:
`value !== undefined && value !== null && value !== ''`. -/
def ParamValue.kept : ParamValue → Bool
  | .undef => false
  | .pnull => false
  | .str s => s ≠ ""
  | _ => true

/-! ## encodeURIComponent model

`encodeURIComponent` leaves the unreserved characters
`A-Z a-z 0-9 - _ . ! ~ * ' ( )` as they are and percent-encodes every UTF-8
byte of any other character as `%HH` with uppercase hex digits. -/

/-- Apostrophe character (U+0027), written by code point to keep source plain. -/
def apostropheChar : Char := Char.ofNat 39

def uriUnreserved (c : Char) : Bool :=
  c.isAlpha || c.isDigit || c = '-' || c = '_' || c = '.' || c = '!' ||
  c = '~' || c = '*' || c = apostropheChar || c = '(' || c = ')'

/-- UTF-8 bytes of a character (by code point ranges). -/
def utf8Bytes (c : Char) : List Nat :=
  let n := c.toNat
  if n < 128 then [n]
  else if n < 2048 then [192 + n / 64, 128 + n % 64]
  else if n < 65536 then [224 + n / 4096, 128 + n / 64 % 64, 128 + n % 64]
  else [240 + n / 262144, 128 + n / 4096 % 64, 128 + n / 64 % 64, 128 + n % 64]

/-- Uppercase hexadecimal digit for a value below 16. -/
def hexDigitUpper (n : Nat) : Char :=
  if n < 10 then Char.ofNat (48 + n) else Char.ofNat (55 + n)

/-- Percent-encoding of one byte: a percent sign followed by two hex digits. -/
def pctByte (b : Nat) : String :=
  String.mk ['%', hexDigitUpper (b / 16), hexDigitUpper (b % 16)]

def encodeURIComponent (s : String) : String :=
  String.join (s.data.map fun c =>
    if uriUnreserved c then String.mk [c]
    else String.join ((utf8Bytes c).map pctByte))

/-! ## String orderings

JavaScript raw string comparison (`<`, `>`) compares UTF-16 code units; for
the strings at hand (no surrogates) this is code-point lexicographic order.

`String.prototype.localeCompare` with the default locale performs an ICU
collation: characters are compared case-insensitively at the primary level
(with digits and other characters before letters) and lowercase sorts before
uppercase at the tertiary level.  This is modelled by mapping each string to
a weight-list key: primary weights, then a sentinel, then tertiary (case)
weights, compared lexicographically. -/

/-- Code points of a string, for raw lexicographic comparison. -/
def codePoints (s : String) : List Nat := s.data.map Char.toNat

/-- Raw (code-point lexicographic) string order, as a Bool. -/
def rawLe (a b : String) : Bool := decide (codePoints a ≤ codePoints b)

/-- Primary collation weight: letters fold case and sort after all other
characters; non-letters keep code-point order (shifted above the sentinel). -/
def primaryWeight (c : Char) : Nat :=
  if c.isAlpha then 512 + c.toLower.toNat else 2 + c.toNat

/-- Tertiary collation weight: lowercase before uppercase. -/
def tertiaryWeight (c : Char) : Nat := if c.isUpper then 1 else 0

/-- Collation key modelling default-locale `localeCompare`. -/
def localeKey (s : String) : List Nat :=
  s.data.map primaryWeight ++ 0 :: s.data.map tertiaryWeight

/-- `a.localeCompare(b) <= 0`, i.e. `a` sorts no later than `b`. -/
def localeLe (a b : String) : Bool := decide (localeKey a ≤ localeKey b)

theorem localeLe_trans (a b c : String) (h1 : localeLe a b = true)
    (h2 : localeLe b c = true) : localeLe a c = true := by
  simp only [localeLe, decide_eq_true_eq] at *
  exact le_trans h1 h2

theorem localeLe_total (a b : String) : (localeLe a b || localeLe b a) = true := by
  simp only [localeLe, Bool.or_eq_true, decide_eq_true_eq]
  exact le_total _ _

/-! ## SignatureAuth.createQueryString (src/auth/signature.ts)

```ts
public createQueryString(params: Record<string, any>): string {
  return Object.entries(params)
    .filter(([, value]) => value !== undefined && value !== null && value !== '')
    .sort(([a], [b]) => a.localeCompare(b))
    .map(([key, value]) => `${encodeURIComponent(key)}=${encodeURIComponent(String(value))}`)
    .join('&');
}
```

`Array.prototype.sort` is a stable sort with respect to the comparator;
it is modelled by `List.insertionSort`, which is stable (for a consistent
comparator any stable sort produces the same output). -/

/-- Entry order used by the sort: compare the keys with `localeCompare`. -/
def entryLe (p q : String × ParamValue) : Prop := localeLe p.1 q.1 = true

instance : DecidableRel entryLe := fun p q => by unfold entryLe; infer_instance

instance : IsTrans (String × ParamValue) entryLe :=
  ⟨fun p q r => localeLe_trans p.1 q.1 r.1⟩

instance : IsTotal (String × ParamValue) entryLe := by
  refine ⟨fun p q => ?_⟩
  have h := localeLe_total p.1 q.1
  rcases Bool.or_eq_true_iff.mp h with h1 | h1
  · exact Or.inl h1
  · exact Or.inr h1

/-- Raw-comparison entry order, used only to state the claim's version. -/
def entryRawLe (p q : String × ParamValue) : Prop := rawLe p.1 q.1 = true

instance : DecidableRel entryRawLe := fun p q => by unfold entryRawLe; infer_instance

namespace SignatureAuth

/-- The filtered and comparator-sorted entry list of `createQueryString`. -/
def canonicalEntries (params : List (String × ParamValue)) :
    List (String × ParamValue) :=
  (params.filter fun p => p.2.kept).insertionSort entryLe

/-- One `key=value` fragment of the query string. -/
def encodedPair (p : String × ParamValue) : String :=
  encodeURIComponent p.1 ++ "=" ++ encodeURIComponent p.2.jsString

def createQueryString (params : List (String × ParamValue)) : String :=
  String.intercalate "&" ((canonicalEntries params).map encodedPair)

end SignatureAuth

/-- The canonical query string as the claim words it: identical pipeline but
with keys sorted by RAW code-point string comparison instead of the source's
`localeCompare`.  Used to compare the claim against the code. -/
def claimRawQueryString (params : List (String × ParamValue)) : String :=
  String.intercalate "&"
    (((params.filter fun p => p.2.kept).insertionSort entryRawLe).map
      SignatureAuth.encodedPair)

/-- Claim C1, sortedness part, for the source pipeline: the keys of the
canonical entry list are pairwise in `localeCompare` order. -/
theorem canonicalEntries_sorted (params : List (String × ParamValue)) :
    List.Pairwise (fun a b => localeLe a b = true)
      ((SignatureAuth.canonicalEntries params).map Prod.fst) := by
  refine List.Pairwise.map Prod.fst (fun p q h => h) ?_
  exact List.sorted_insertionSort entryLe _

/-- The canonical entry list is a permutation of the kept entries. -/
theorem canonicalEntries_perm (params : List (String × ParamValue)) :
    (SignatureAuth.canonicalEntries params).Perm
      (params.filter fun p => p.2.kept) :=
  List.perm_insertionSort _ _

/-- Every entry surviving into the canonical list has a kept value
(not `undefined`, not `null`, not the empty string). -/
theorem canonicalEntries_kept (params : List (String × ParamValue)) :
    ∀ p ∈ SignatureAuth.canonicalEntries params, p.2.kept = true := by
  intro p hp
  have := (canonicalEntries_perm params).mem_iff.mp hp
  exact (List.mem_filter.mp this).2

/-- Claim C1 (amended): for every parameter mapping, `createQueryString`
joins `key=value` pairs with `&`, excludes entries whose value is
`undefined`, `null` or the empty string, percent-encodes every remaining
key and stringified value, and emits the keys sorted by the comparator the
code actually uses — default-locale `localeCompare` (case-insensitive at
the primary level) — not by raw code-point comparison. -/
theorem c1_createQueryString_canonical (params : List (String × ParamValue)) :
    SignatureAuth.createQueryString params =
      String.intercalate "&"
        ((SignatureAuth.canonicalEntries params).map SignatureAuth.encodedPair) ∧
    (SignatureAuth.canonicalEntries params).Perm
      (params.filter fun p => p.2.kept) ∧
    (∀ p ∈ SignatureAuth.canonicalEntries params, p.2.kept = true) ∧
    List.Pairwise (fun a b => localeLe a b = true)
      ((SignatureAuth.canonicalEntries params).map Prod.fst) :=
  ⟨rfl, canonicalEntries_perm params, canonicalEntries_kept params,
    canonicalEntries_sorted params⟩

/-- Claim C1 counterexample: on the mapping `{a: "1", B: "2"}` the code
produces `a=1&B=2` (locale order puts `a` before `B`), whereas sorting the
keys by raw string comparison would give `B=2&a=1`; the output keys
`["a", "B"]` are not in non-decreasing raw lexicographic order. -/
theorem c1_raw_sort_counterexample :
    SignatureAuth.createQueryString [("a", .str "1"), ("B", .str "2")] = "a=1&B=2" ∧
    claimRawQueryString [("a", .str "1"), ("B", .str "2")] = "B=2&a=1" ∧
    (SignatureAuth.canonicalEntries [("a", .str "1"), ("B", .str "2")]).map Prod.fst
      = ["a", "B"] ∧
    rawLe "a" "B" = false := by decide

/-! ## Web3 nonce generator (src/auth/web3signature.ts)

```ts
private generateNonce(): number {
  return Math.trunc(Date.now() * TIME_CONSTANTS.MICROSECONDS_IN_MILLISECOND);
}
```

`Date.now()` yields the wall clock in integer milliseconds; the product with
1000 is integral (and below 2^53), so `Math.trunc` is the identity.  The
function is modelled over an explicit clock reading. -/

def TIME_CONSTANTS.MICROSECONDS_IN_MILLISECOND : Nat := 1000

def TIME_CONSTANTS.DEFAULT_REQUEST_TIMEOUT : Nat := 10000

def Web3SignatureAuth.generateNonce (nowMs : Nat) : Nat :=
  nowMs * TIME_CONSTANTS.MICROSECONDS_IN_MILLISECOND

/-- Nonces produced by a sequence of calls with the given clock readings. -/
def nonceTrace (clocks : List Nat) : List Nat :=
  clocks.map Web3SignatureAuth.generateNonce

/-- Claim C2 (amended): the nonce is the clock reading in milliseconds times
1000 (microsecond resolution), and calls whose clock readings are strictly
increasing (at least 1 ms apart) produce strictly increasing nonces.  Two
calls in the same millisecond produce EQUAL nonces, not distinct ones. -/
theorem c2_nonce_monotone (clocks : List Nat)
    (h : clocks.Chain' (· < ·)) :
    (nonceTrace clocks).Chain' (· < ·) ∧
    ∀ t ∈ clocks, Web3SignatureAuth.generateNonce t = t * 1000 := by
  constructor
  · rw [nonceTrace, List.chain'_map]
    refine h.imp ?_
    intro a b hab
    simp only [Web3SignatureAuth.generateNonce, TIME_CONSTANTS.MICROSECONDS_IN_MILLISECOND]
    omega
  · intro t _
    rfl

/-- Witness for `c2_nonce_monotone` at the concrete clock trace `[1, 2, 3]`. -/
theorem c2_nonce_monotone_witness :
    (nonceTrace [1, 2, 3]).Chain' (· < ·) ∧
    ∀ t ∈ [1, 2, 3], Web3SignatureAuth.generateNonce t = t * 1000 :=
  c2_nonce_monotone [1, 2, 3] (by norm_num [List.chain'_cons])

/-- Claim C2 counterexample: two calls issued in the same millisecond
(clock reading 1700000000000 twice) produce the same nonce, so the nonces
of a call sequence are NOT duplicate-free as the claim requires. -/
theorem c2_same_millisecond_counterexample :
    Web3SignatureAuth.generateNonce 1700000000000 = 1700000000000000 ∧
    ¬ (nonceTrace [1700000000000, 1700000000000]).Nodup := by decide

/-! ## Credential format validators (src/auth/web3signature.ts)

```ts
public static validateAddresses(userAddress: string, signerAddress: string): boolean {
  const addressRegex = new RegExp(`^0x[a-fA-F0-9]{${VALIDATION_CONSTANTS.ETHEREUM_ADDRESS_LENGTH}}`);
  return addressRegex.test(userAddress) && addressRegex.test(signerAddress);
}
public static validatePrivateKey(privateKey: string): boolean {
  const withoutPrefixRegex = new RegExp(`^[a-fA-F0-9]{${VALIDATION_CONSTANTS.PRIVATE_KEY_LENGTH}}`);
  const withPrefixRegex = new RegExp(`^0x[a-fA-F0-9]{${VALIDATION_CONSTANTS.PRIVATE_KEY_LENGTH}}`);
  return withoutPrefixRegex.test(privateKey) || withPrefixRegex.test(privateKey);
}
```

Both regexes are anchored at the start (`^`) but NOT at the end (no `$`), so
`.test` checks that the string STARTS with the demanded shape; trailing
characters (hex or not) are accepted. -/

def VALIDATION_CONSTANTS.ETHEREUM_ADDRESS_LENGTH : Nat := 40

def VALIDATION_CONSTANTS.PRIVATE_KEY_LENGTH : Nat := 64

/-- `[a-fA-F0-9]` character class. -/
def isHexDigit (c : Char) : Bool :=
  c.isDigit || ('a' ≤ c && c ≤ 'f') || ('A' ≤ c && c ≤ 'F')

/-- `n` consecutive hex digits at the head of the character list. -/
def hexRun : Nat → List Char → Bool
  | 0, _ => true
  | _ + 1, [] => false
  | n + 1, c :: cs => isHexDigit c && hexRun n cs

/-- `new RegExp("^0x[a-fA-F0-9]{n}").test s` (start-anchored only). -/
def test0xHexRegex (n : Nat) (s : String) : Bool :=
  match s.data with
  | c1 :: c2 :: rest => c1 = '0' && c2 = 'x' && hexRun n rest
  | _ => false

/-- `new RegExp("^[a-fA-F0-9]{n}").test s` (start-anchored only). -/
def testHexRegex (n : Nat) (s : String) : Bool := hexRun n s.data

def Web3SignatureAuth.validateAddresses (userAddress signerAddress : String) : Bool :=
  test0xHexRegex VALIDATION_CONSTANTS.ETHEREUM_ADDRESS_LENGTH userAddress &&
  test0xHexRegex VALIDATION_CONSTANTS.ETHEREUM_ADDRESS_LENGTH signerAddress

def Web3SignatureAuth.validatePrivateKey (privateKey : String) : Bool :=
  testHexRegex VALIDATION_CONSTANTS.PRIVATE_KEY_LENGTH privateKey ||
  test0xHexRegex VALIDATION_CONSTANTS.PRIVATE_KEY_LENGTH privateKey

theorem hexRun_iff (n : Nat) (cs : List Char) :
    hexRun n cs = true ↔ n ≤ cs.length ∧ ∀ c ∈ cs.take n, isHexDigit c = true := by
  induction n generalizing cs with
  | zero => simp [hexRun]
  | succ n ih =>
    cases cs with
    | nil => simp [hexRun]
    | cons c cs =>
      simp only [hexRun, Bool.and_eq_true, ih, List.take_succ_cons, List.mem_cons,
        List.length_cons, Nat.succ_le_succ_iff]
      constructor
      · rintro ⟨h1, h2, h3⟩
        exact ⟨h2, by rintro x (rfl | hx); exact h1; exact h3 x hx⟩
      · rintro ⟨h1, h2⟩
        exact ⟨h2 c (Or.inl rfl), h1, fun x hx => h2 x (Or.inr hx)⟩

theorem test0xHexRegex_iff (n : Nat) (s : String) :
    test0xHexRegex n s = true ↔
      ∃ rest, s.data = '0' :: 'x' :: rest ∧ hexRun n rest = true := by
  obtain ⟨l⟩ := s
  unfold test0xHexRegex
  rcases l with _ | ⟨c1, tl⟩
  · simp
  · rcases tl with _ | ⟨c2, rest⟩
    · simp
    · simp only [Bool.and_eq_true, decide_eq_true_eq, String.data]
      constructor
      · rintro ⟨⟨rfl, rfl⟩, h⟩
        exact ⟨rest, rfl, h⟩
      · rintro ⟨rest', heq, h⟩
        injection heq with h1 h23
        injection h23 with h2 h3
        subst h1; subst h2; subst h3
        exact ⟨⟨rfl, rfl⟩, h⟩

/-- The shape `validateAddresses` actually accepts: the string STARTS with
`0x` followed by at least 40 hex characters (anything may follow). -/
def addrShape (s : String) : Prop :=
  ∃ rest, s.data = '0' :: 'x' :: rest ∧ 40 ≤ rest.length ∧
    ∀ c ∈ rest.take 40, isHexDigit c = true

/-- The shape `validatePrivateKey` actually accepts: the string STARTS with
64 hex characters, or with `0x` followed by at least 64 hex characters. -/
def keyShape (s : String) : Prop :=
  (64 ≤ s.data.length ∧ ∀ c ∈ s.data.take 64, isHexDigit c = true) ∨
  ∃ rest, s.data = '0' :: 'x' :: rest ∧ 64 ≤ rest.length ∧
    ∀ c ∈ rest.take 64, isHexDigit c = true

/-- Claim C5 (amended): the validators test start-anchored prefixes, not the
exact shape.  `validateAddresses` returns true iff both arguments START with
`0x` + 40 hex characters; `validatePrivateKey` returns true iff the key
STARTS with 64 hex characters (with or without a `0x` prefix).  A bare
63-hex-character key is rejected, a 64-hex-character key (with or without
`0x`) is accepted — but so is a 65-hex-character key, since the regexes are
not end-anchored. -/
theorem c5_validators_amended :
    (∀ u s, Web3SignatureAuth.validateAddresses u s = true ↔
      addrShape u ∧ addrShape s) ∧
    (∀ k, Web3SignatureAuth.validatePrivateKey k = true ↔ keyShape k) ∧
    Web3SignatureAuth.validateAddresses
      ("0x" ++ String.mk (List.replicate 40 'c'))
      ("0x" ++ String.mk (List.replicate 40 'c')) = true ∧
    Web3SignatureAuth.validatePrivateKey (String.mk (List.replicate 63 'a')) = false ∧
    Web3SignatureAuth.validatePrivateKey (String.mk (List.replicate 64 'a')) = true ∧
    Web3SignatureAuth.validatePrivateKey
      ("0x" ++ String.mk (List.replicate 64 'b')) = true := by
  refine ⟨?_, ?_, by decide, by decide, by decide, by decide⟩
  · intro u s
    simp [Web3SignatureAuth.validateAddresses, Bool.and_eq_true,
      VALIDATION_CONSTANTS.ETHEREUM_ADDRESS_LENGTH, test0xHexRegex_iff,
      hexRun_iff, addrShape]
  · intro k
    simp [Web3SignatureAuth.validatePrivateKey, Bool.or_eq_true, testHexRegex,
      VALIDATION_CONSTANTS.PRIVATE_KEY_LENGTH, test0xHexRegex_iff,
      hexRun_iff, keyShape]

/-- Claim C5 counterexample: a 65-hex-character private key is accepted
(the claim says it must be rejected), and an address of `0x` + 41 hex
characters is accepted (the claim demands exactly 40). -/
theorem c5_unanchored_counterexample :
    Web3SignatureAuth.validatePrivateKey (String.mk (List.replicate 65 'a')) = true ∧
    (String.mk (List.replicate 65 'a')).data.length = 65 ∧
    Web3SignatureAuth.validateAddresses ("0x" ++ String.mk (List.replicate 41 'b'))
      ("0x" ++ String.mk (List.replicate 41 'b')) = true ∧
    ("0x" ++ String.mk (List.replicate 41 'b')).data.length = 43 := by decide

/-! ## RateLimiter (src/utils/http.ts)

```ts
public canMakeRequest(): boolean {
  const now = Date.now();
  this.cleanOldRequests(now);
  return this.requests.length < this.maxRequests;
}
public recordRequest(): void {
  const now = Date.now();
  this.cleanOldRequests(now);
  this.requests.push(now);
}
private cleanOldRequests(now: number): void {
  const cutoff = now - this.windowMs;
  this.requests = this.requests.filter((timestamp) => timestamp > cutoff);
}
```

`Date.now()` is passed in explicitly as `now`.  `waitUntilReady` only calls
`canMakeRequest` (whose pruning is its sole state effect) and sleeps;
`getTimeUntilReset` does not mutate state. -/

structure RateLimiter where
  maxRequests : Nat
  windowMs : Int
  requests : List Int
deriving DecidableEq, Repr

namespace RateLimiter

def cleanOldRequests (rl : RateLimiter) (now : Int) : RateLimiter :=
  { rl with requests := rl.requests.filter fun t => decide (now - rl.windowMs < t) }

def canMakeRequest (rl : RateLimiter) (now : Int) : Bool × RateLimiter :=
  let rl' := rl.cleanOldRequests now
  (decide (rl'.requests.length < rl.maxRequests), rl')

def recordRequest (rl : RateLimiter) (now : Int) : RateLimiter :=
  let rl' := rl.cleanOldRequests now
  { rl' with requests := rl'.requests ++ [now] }

def getTimeUntilReset (rl : RateLimiter) (now : Int) : Int :=
  match rl.requests.min? with
  | none => 0
  | some oldest => max 0 (oldest + rl.windowMs - now)

def reset (rl : RateLimiter) : RateLimiter := { rl with requests := [] }

/-- Number of recorded timestamps lying within the trailing window at `now`
(the same cutoff predicate the code uses for pruning). -/
def countInWindow (rl : RateLimiter) (now : Int) : Nat :=
  (rl.requests.filter fun t => decide (now - rl.windowMs < t)).length

end RateLimiter

/-- States reachable from a fresh limiter under the PUBLIC operations exactly
as coded: `canMakeRequest`/`waitUntilReady` (prune), unconditional
`recordRequest`, and `reset`, each at an arbitrary clock reading.  This is
the reading of the claim: the operation set with no admission discipline. -/
inductive RateLimiter.Reachable (maxR : Nat) (w : Int) : RateLimiter → Prop
  | init : RateLimiter.Reachable maxR w ⟨maxR, w, []⟩
  | can (s : RateLimiter) (now : Int) : RateLimiter.Reachable maxR w s →
      RateLimiter.Reachable maxR w (s.canMakeRequest now).2
  | record (s : RateLimiter) (now : Int) : RateLimiter.Reachable maxR w s →
      RateLimiter.Reachable maxR w (s.recordRequest now)
  | doReset (s : RateLimiter) : RateLimiter.Reachable maxR w s →
      RateLimiter.Reachable maxR w s.reset

/-- States reachable under the admission discipline the spec describes
("mutated by recording each admitted request"): a request is recorded only
when `canMakeRequest` returns true at the same clock reading. -/
inductive RateLimiter.AdmittedReachable (maxR : Nat) (w : Int) : RateLimiter → Prop
  | init : RateLimiter.AdmittedReachable maxR w ⟨maxR, w, []⟩
  | can (s : RateLimiter) (now : Int) : RateLimiter.AdmittedReachable maxR w s →
      RateLimiter.AdmittedReachable maxR w (s.canMakeRequest now).2
  | record (s : RateLimiter) (now : Int) : RateLimiter.AdmittedReachable maxR w s →
      (s.canMakeRequest now).1 = true →
      RateLimiter.AdmittedReachable maxR w (s.recordRequest now)
  | doReset (s : RateLimiter) : RateLimiter.AdmittedReachable maxR w s →
      RateLimiter.AdmittedReachable maxR w s.reset

theorem admitted_fields_and_length {maxR : Nat} {w : Int} {rl : RateLimiter}
    (h : RateLimiter.AdmittedReachable maxR w rl) :
    rl.maxRequests = maxR ∧ rl.requests.length ≤ maxR := by
  induction h with
  | init => exact ⟨rfl, Nat.zero_le _⟩
  | can s now _ ih =>
    exact ⟨ih.1, le_trans (List.length_filter_le _ _) ih.2⟩
  | record s now _ hadm ih =>
    refine ⟨ih.1, ?_⟩
    simp only [RateLimiter.canMakeRequest, decide_eq_true_eq] at hadm
    simp only [RateLimiter.cleanOldRequests] at hadm
    rw [ih.1] at hadm
    simp only [RateLimiter.recordRequest, RateLimiter.cleanOldRequests,
      List.length_append, List.length_cons, List.length_nil]
    omega
  | doReset s _ ih => exact ⟨ih.1, Nat.zero_le _⟩

/-- Claim C6 (amended): under the admission discipline the spec describes —
each `recordRequest` preceded by a `canMakeRequest` returning true at the
same clock reading — the number of recorded timestamps within the trailing
window never exceeds `maxRequests`, at every clock reading; and in the
concrete scenario `maxRequests = 5, windowMs = 1000`, after 5 admitted
records at time 0 `canMakeRequest` is false at time 0 and true again at
time 1001.  The invariant does NOT hold for unconstrained `recordRequest`
calls (see the counterexample). -/
theorem c6_rate_window (maxR : Nat) (w : Int) (rl : RateLimiter)
    (h : RateLimiter.AdmittedReachable maxR w rl) :
    (∀ now : Int, rl.countInWindow now ≤ maxR) ∧
    (RateLimiter.canMakeRequest ⟨5, 1000, List.replicate 5 0⟩ 0).1 = false ∧
    (RateLimiter.canMakeRequest ⟨5, 1000, List.replicate 5 0⟩ 1001).1 = true := by
  refine ⟨fun now => ?_, by decide, by decide⟩
  exact le_trans (List.length_filter_le _ _) (admitted_fields_and_length h).2

/-- Witness for `c6_rate_window`: the state holding 5 admitted requests at
time 0 is reachable under the admission discipline, and the theorem applies
to it. -/
theorem c6_rate_window_witness :
    (∀ now : Int, RateLimiter.countInWindow ⟨5, 1000, List.replicate 5 0⟩ now ≤ 5) ∧
    (RateLimiter.canMakeRequest ⟨5, 1000, List.replicate 5 0⟩ 0).1 = false ∧
    (RateLimiter.canMakeRequest ⟨5, 1000, List.replicate 5 0⟩ 1001).1 = true := by
  have h0 : RateLimiter.AdmittedReachable 5 1000 ⟨5, 1000, []⟩ :=
    RateLimiter.AdmittedReachable.init
  have e1 : RateLimiter.recordRequest ⟨5, 1000, []⟩ 0 = ⟨5, 1000, List.replicate 1 0⟩ := by decide
  have h1 := e1 ▸ RateLimiter.AdmittedReachable.record _ 0 h0 (by decide)
  have e2 : RateLimiter.recordRequest ⟨5, 1000, List.replicate 1 0⟩ 0
      = ⟨5, 1000, List.replicate 2 0⟩ := by decide
  have h2 := e2 ▸ RateLimiter.AdmittedReachable.record _ 0 h1 (by decide)
  have e3 : RateLimiter.recordRequest ⟨5, 1000, List.replicate 2 0⟩ 0
      = ⟨5, 1000, List.replicate 3 0⟩ := by decide
  have h3 := e3 ▸ RateLimiter.AdmittedReachable.record _ 0 h2 (by decide)
  have e4 : RateLimiter.recordRequest ⟨5, 1000, List.replicate 3 0⟩ 0
      = ⟨5, 1000, List.replicate 4 0⟩ := by decide
  have h4 := e4 ▸ RateLimiter.AdmittedReachable.record _ 0 h3 (by decide)
  have e5 : RateLimiter.recordRequest ⟨5, 1000, List.replicate 4 0⟩ 0
      = ⟨5, 1000, List.replicate 5 0⟩ := by decide
  have h5 := e5 ▸ RateLimiter.AdmittedReachable.record _ 0 h4 (by decide)
  exact c6_rate_window 5 1000 _ h5

/-- Claim C6 counterexample: with the operations exactly as coded,
`recordRequest` is unconditional, so the state after six `recordRequest()`
calls at time 0 is reachable with `maxRequests = 5`, and it holds six
timestamps within the window — the claimed invariant fails. -/
theorem c6_unguarded_counterexample :
    RateLimiter.Reachable 5 1000 ⟨5, 1000, List.replicate 6 0⟩ ∧
    RateLimiter.countInWindow ⟨5, 1000, List.replicate 6 0⟩ 0 = 6 ∧
    ¬ RateLimiter.countInWindow ⟨5, 1000, List.replicate 6 0⟩ 0 ≤ 5 := by
  refine ⟨?_, by decide, by decide⟩
  have h0 : RateLimiter.Reachable 5 1000 ⟨5, 1000, []⟩ := RateLimiter.Reachable.init
  have e1 : RateLimiter.recordRequest ⟨5, 1000, []⟩ 0 = ⟨5, 1000, List.replicate 1 0⟩ := by decide
  have h1 := e1 ▸ RateLimiter.Reachable.record _ 0 h0
  have e2 : RateLimiter.recordRequest ⟨5, 1000, List.replicate 1 0⟩ 0
      = ⟨5, 1000, List.replicate 2 0⟩ := by decide
  have h2 := e2 ▸ RateLimiter.Reachable.record _ 0 h1
  have e3 : RateLimiter.recordRequest ⟨5, 1000, List.replicate 2 0⟩ 0
      = ⟨5, 1000, List.replicate 3 0⟩ := by decide
  have h3 := e3 ▸ RateLimiter.Reachable.record _ 0 h2
  have e4 : RateLimiter.recordRequest ⟨5, 1000, List.replicate 3 0⟩ 0
      = ⟨5, 1000, List.replicate 4 0⟩ := by decide
  have h4 := e4 ▸ RateLimiter.Reachable.record _ 0 h3
  have e5 : RateLimiter.recordRequest ⟨5, 1000, List.replicate 4 0⟩ 0
      = ⟨5, 1000, List.replicate 5 0⟩ := by decide
  have h5 := e5 ▸ RateLimiter.Reachable.record _ 0 h4
  have e6 : RateLimiter.recordRequest ⟨5, 1000, List.replicate 5 0⟩ 0
      = ⟨5, 1000, List.replicate 6 0⟩ := by decide
  exact e6 ▸ RateLimiter.Reachable.record _ 0 h5

/-! ## HttpClient retry loop (src/utils/http.ts) and error classification
(src/errors/errors.ts)

`executeRequest` produces, per attempt, either a successful response, an
`ApiResponseError`/`RateLimitError` built by `ErrorFactory.fromHttpResponse`
(a `RateLimitError` carrying the parsed `Retry-After` header exactly for
status 429/418), a `NetworkError`, or some other rethrown error.  The
environment is modelled as the list of outcomes of the successive
`executeRequest` invocations. -/

inductive HttpOutcome where
  | ok : HttpOutcome
  | apiErr (status : Nat) (retryAfter : Option Nat) : HttpOutcome
  | netErr : HttpOutcome
  | otherErr : HttpOutcome
deriving DecidableEq, Repr

def HTTP_STATUS.BAD_REQUEST : Nat := 400

def HTTP_STATUS.INTERNAL_SERVER_ERROR : Nat := 500

def HTTP_STATUS.TOO_MANY_REQUESTS : Nat := 429

def HTTP_STATUS.IM_A_TEAPOT : Nat := 418

/-- `ApiResponseError.isClientError`. -/
def isClientStatus (st : Nat) : Bool :=
  HTTP_STATUS.BAD_REQUEST ≤ st && st < HTTP_STATUS.INTERNAL_SERVER_ERROR

/-- `ApiResponseError.isServerError`. -/
def isServerStatus (st : Nat) : Bool := HTTP_STATUS.INTERNAL_SERVER_ERROR ≤ st

/-- `ApiResponseError.isRateLimitError`. -/
def isRateLimitStatus (st : Nat) : Bool :=
  st = HTTP_STATUS.TOO_MANY_REQUESTS || st = HTTP_STATUS.IM_A_TEAPOT

/-- `isRetryableError` (src/errors/errors.ts): non-rate-limit client errors
are never retryable; otherwise an API error is retryable iff it is a server
error or a rate-limit error; network errors are always retryable; other
errors are not. -/
def isRetryableError : HttpOutcome → Bool
  | .ok => false
  | .apiErr st _ =>
      if isClientStatus st && !isRateLimitStatus st then false
      else isServerStatus st || isRateLimitStatus st
  | .netErr => true
  | .otherErr => false

/-- `getRetryDelay`: a `RateLimitError` with a truthy `retryAfter` (seconds)
overrides the default delay with `retryAfter * 1000` ms; a `RateLimitError`
is constructed exactly for status 429/418, and `retryAfter: 0` is falsy. -/
def getRetryDelay (e : HttpOutcome) (defaultDelay : Nat) : Nat :=
  match e with
  | .apiErr st (some ra) =>
      if isRateLimitStatus st && ra ≠ 0 then ra * 1000 else defaultDelay
  | _ => defaultDelay

structure RetryConfig where
  maxRetries : Nat
  retryDelay : Nat
  backoffMultiplier : Nat
deriving DecidableEq, Repr

/-- Result of the `request` loop: whether it resolved, the error it finally
rejected with (if any), how many `executeRequest` invocations took place,
and the backoff delays slept between attempts. -/
structure RunResult where
  resolved : Bool
  finalError : Option HttpOutcome
  attempts : Nat
  delays : List Nat
deriving DecidableEq, Repr

namespace HttpClient

/-- The `while (attempt <= maxRetries)` loop of `HttpClient.request`:
return on success; on error, break when `attempt === maxRetries` or the
error is not retryable, otherwise sleep
`getRetryDelay(err, retryDelay * backoffMultiplier ** attempt)` and loop
with `attempt + 1`. -/
def requestGo (cfg : RetryConfig) (attempt : Nat) : List HttpOutcome → RunResult
  | [] => ⟨false, none, 0, []⟩
  | o :: rest =>
    if o = .ok then ⟨true, none, 1, []⟩
    else if attempt = cfg.maxRetries || !isRetryableError o then
      ⟨false, some o, 1, []⟩
    else
      let d := getRetryDelay o (cfg.retryDelay * cfg.backoffMultiplier ^ attempt)
      let r := requestGo cfg (attempt + 1) rest
      ⟨r.resolved, r.finalError, r.attempts + 1, d :: r.delays⟩

def request (cfg : RetryConfig) (outcomes : List HttpOutcome) : RunResult :=
  requestGo cfg 0 outcomes

end HttpClient

/-- Retry budget: the loop never sleeps more than `maxRetries - attempt`
times. -/
theorem requestGo_delays_bound (cfg : RetryConfig) (outcomes : List HttpOutcome) :
    ∀ attempt, attempt ≤ cfg.maxRetries →
      (HttpClient.requestGo cfg attempt outcomes).delays.length + attempt ≤
        cfg.maxRetries := by
  induction outcomes with
  | nil => intro attempt h; simpa [HttpClient.requestGo] using h
  | cons o rest ih =>
    intro attempt h
    by_cases hok : o = HttpOutcome.ok
    · simp [HttpClient.requestGo, hok]; omega
    · by_cases hbr : attempt = cfg.maxRetries || !isRetryableError o
      · simp [HttpClient.requestGo, hok, hbr]; omega
      · have hne : ¬ attempt = cfg.maxRetries := by
          intro hc; rw [hc] at hbr; simp at hbr
        have h1 : attempt + 1 ≤ cfg.maxRetries := by omega
        have := ih (attempt + 1) h1
        simp only [HttpClient.requestGo, if_neg hok, if_neg hbr,
          List.length_cons]
        omega

/-- Every slept delay corresponds to a retryable error outcome, with the
exponential-backoff value (overridden by retry-after inside
`getRetryDelay`). -/
theorem requestGo_delays_spec (cfg : RetryConfig) (outcomes : List HttpOutcome) :
    ∀ attempt i d,
      (HttpClient.requestGo cfg attempt outcomes).delays.get? i = some d →
      ∃ e, outcomes.get? i = some e ∧ isRetryableError e = true ∧
        d = getRetryDelay e (cfg.retryDelay * cfg.backoffMultiplier ^ (attempt + i)) := by
  induction outcomes with
  | nil => intro attempt i d hd; simp [HttpClient.requestGo] at hd
  | cons o rest ih =>
    intro attempt i d hd
    by_cases hok : o = HttpOutcome.ok
    · simp [HttpClient.requestGo, hok] at hd
    · by_cases hbr : attempt = cfg.maxRetries || !isRetryableError o
      · simp [HttpClient.requestGo, hok, hbr] at hd
      · have hretry : isRetryableError o = true := by
          cases hr : isRetryableError o with
          | true => rfl
          | false => exact absurd (by simp [hr]) hbr
        simp only [HttpClient.requestGo, if_neg hok, if_neg hbr] at hd
        cases i with
        | zero =>
          simp only [List.get?_cons_zero, Option.some.injEq] at hd
          refine ⟨o, rfl, hretry, ?_⟩
          rw [← hd]; rw [Nat.add_zero]
        | succ i =>
          simp only [List.get?_cons_succ] at hd
          obtain ⟨e, he, hr, hdel⟩ := ih (attempt + 1) i d hd
          refine ⟨e, by simpa using he, hr, ?_⟩
          have hexp : attempt + 1 + i = attempt + (i + 1) := by omega
          rw [hdel, hexp]

/-- Claim C7: the transport retries only on retryable failures (5xx, 429/418
rate limits, network errors — all others reject immediately), sleeping
`retryDelay * backoffMultiplier ^ attempt` between attempts (overridden by
the Retry-After value on a rate-limit error), with at most `maxRetries`
retries; a 503-503-ok run resolves after exactly 2 retries when
`maxRetries ≥ 2`, and a 400 failure rejects immediately with no retry. -/
theorem c7_retry_policy (cfg : RetryConfig) (h : 2 ≤ cfg.maxRetries) :
    HttpClient.request cfg [.apiErr 503 none, .apiErr 503 none, .ok] =
      ⟨true, none, 3, [cfg.retryDelay, cfg.retryDelay * cfg.backoffMultiplier]⟩ ∧
    (∀ ra rest, HttpClient.request cfg (.apiErr 400 ra :: rest) =
      ⟨false, some (.apiErr 400 ra), 1, []⟩) ∧
    (∀ outcomes, (HttpClient.request cfg outcomes).delays.length ≤ cfg.maxRetries) ∧
    (∀ outcomes i d, (HttpClient.request cfg outcomes).delays.get? i = some d →
      ∃ e, outcomes.get? i = some e ∧ isRetryableError e = true ∧
        d = getRetryDelay e (cfg.retryDelay * cfg.backoffMultiplier ^ i)) ∧
    (∀ st ra, isRetryableError (.apiErr st ra) = true ↔
      (500 ≤ st ∨ st = 429 ∨ st = 418)) ∧
    isRetryableError .netErr = true ∧
    isRetryableError .otherErr = false ∧
    (∀ st d ra, isRateLimitStatus st = true → ra ≠ 0 →
      getRetryDelay (.apiErr st (some ra)) d = ra * 1000) := by
  refine ⟨?_, ?_, ?_, ?_, ?_, rfl, rfl, ?_⟩
  · have h0 : (decide (0 = cfg.maxRetries)) = false := by simp; omega
    have h1 : (decide (1 = cfg.maxRetries)) = false := by simp; omega
    simp [HttpClient.request, HttpClient.requestGo, h0, h1, getRetryDelay,
      isRetryableError, isClientStatus, isServerStatus, isRateLimitStatus,
      HTTP_STATUS.BAD_REQUEST, HTTP_STATUS.INTERNAL_SERVER_ERROR,
      HTTP_STATUS.TOO_MANY_REQUESTS, HTTP_STATUS.IM_A_TEAPOT, pow_zero, pow_one]
  · intro ra rest
    simp [HttpClient.request, HttpClient.requestGo, isRetryableError,
      isClientStatus, isServerStatus, isRateLimitStatus,
      HTTP_STATUS.BAD_REQUEST, HTTP_STATUS.INTERNAL_SERVER_ERROR,
      HTTP_STATUS.TOO_MANY_REQUESTS, HTTP_STATUS.IM_A_TEAPOT]
  · intro outcomes
    have := requestGo_delays_bound cfg outcomes 0 (Nat.zero_le _)
    simpa [HttpClient.request] using this
  · intro outcomes i d hd
    have := requestGo_delays_spec cfg outcomes 0 i d hd
    simpa [HttpClient.request] using this
  · intro st ra
    simp only [isRetryableError, isClientStatus, isServerStatus, isRateLimitStatus,
      HTTP_STATUS.BAD_REQUEST, HTTP_STATUS.INTERNAL_SERVER_ERROR,
      HTTP_STATUS.TOO_MANY_REQUESTS, HTTP_STATUS.IM_A_TEAPOT]
    by_cases h429 : st = 429 <;> by_cases h418 : st = 418 <;>
      by_cases hge : 500 ≤ st <;> by_cases hlt : 400 ≤ st <;>
      simp [h429, h418, hge, hlt]
  · intro st d ra hrl hra
    simp [getRetryDelay, hrl, hra]

/-- Witness for `c7_retry_policy` at the default retry configuration
(`maxRetries = 3, retryDelay = 1000, backoffMultiplier = 2`). -/
theorem c7_retry_policy_witness :
    HttpClient.request ⟨3, 1000, 2⟩ [.apiErr 503 none, .apiErr 503 none, .ok] =
      ⟨true, none, 3, [1000, 2000]⟩ ∧
    HttpClient.request ⟨3, 1000, 2⟩ [.apiErr 400 none] =
      ⟨false, some (.apiErr 400 none), 1, []⟩ := by
  have h := c7_retry_policy ⟨3, 1000, 2⟩ (by norm_num)
  exact ⟨h.1, h.2.1 none []⟩

/-! ## AsterWebSocketClient (websocket client module)

State machine model of the stream connection: connection state, the
subscription `Set` (modelled as an insertion-ordered duplicate-free list,
matching JS `Set` iteration order), the request-id counter, the mutable
`config.reconnect` flag, the reconnect attempt counter and the reconnect
timer.  The socket/server environment enters through explicit parameters:
`serverOk` (whether a correlated response resolves the pending request) and
`connectOk` (whether a reconnect attempt opens the socket). -/

def WS_CONSTANTS.MAX_SUBSCRIPTIONS : Nat := 1024

def WS_CONSTANTS.RECONNECT_INTERVAL : Nat := 5000

def WS_CONSTANTS.MAX_RECONNECT_ATTEMPTS : Nat := 5

inductive WebSocketState where
  | CONNECTING : WebSocketState
  | OPEN : WebSocketState
  | CLOSING : WebSocketState
  | CLOSED : WebSocketState
deriving DecidableEq, Repr

structure WSClient where
  state : WebSocketState
  subscriptions : List String
  requestId : Nat
  reconnect : Bool
  reconnectInterval : Nat
  maxReconnectAttempts : Nat
  reconnectAttempts : Nat
  reconnectTimerArmed : Bool
deriving DecidableEq, Repr

/-- JS `Set.add`: append if absent (insertion order preserved). -/
def setAdd (l : List String) (x : String) : List String :=
  if x ∈ l then l else l ++ [x]

/-- JS `Set.delete`. -/
def setDelete (l : List String) (x : String) : List String :=
  l.filter fun y => decide (y ≠ x)

/-- A subscribe/unsubscribe request written to the wire:
`{ method, params, id }`. -/
structure SentMsg where
  method : String
  params : List String
  id : Nat
deriving DecidableEq, Repr

/-- Outcome of one subscribe/unsubscribe call, carrying the client state
after the call and the wire message when one was sent. -/
inductive OpResult where
  | tooManySubs (c : WSClient) : OpResult
  | notConnected (c : WSClient) : OpResult
  | requestFailed (c : WSClient) (msg : SentMsg) : OpResult
  | okR (c : WSClient) (msg : SentMsg) : OpResult
deriving DecidableEq, Repr

namespace AsterWebSocketClient

/-- `subscribe(streams)`: the ceiling check
`subscriptions.size + streamArray.length > MAX_SUBSCRIPTIONS` comes FIRST
(throwing before `sendRequest`); `sendRequest` then throws "not connected"
unless the state is `OPEN`, otherwise assigns `id = requestId++` and sends;
the streams are added to the subscription set only after the correlated
response resolves. -/
def subscribe (c : WSClient) (streams : List String) (serverOk : Bool) : OpResult :=
  if WS_CONSTANTS.MAX_SUBSCRIPTIONS < c.subscriptions.length + streams.length then
    .tooManySubs c
  else if c.state ≠ .OPEN then .notConnected c
  else
    let msg : SentMsg := ⟨"SUBSCRIBE", streams, c.requestId⟩
    let c' := {c with requestId := c.requestId + 1}
    if serverOk then
      .okR {c' with subscriptions := streams.foldl setAdd c'.subscriptions} msg
    else .requestFailed c' msg

/-- `unsubscribe(streams)`: no ceiling check; otherwise like `subscribe`,
deleting the streams from the set after the response resolves. -/
def unsubscribe (c : WSClient) (streams : List String) (serverOk : Bool) : OpResult :=
  if c.state ≠ .OPEN then .notConnected c
  else
    let msg : SentMsg := ⟨"UNSUBSCRIBE", streams, c.requestId⟩
    let c' := {c with requestId := c.requestId + 1}
    if serverOk then
      .okR {c' with subscriptions := streams.foldl setDelete c'.subscriptions} msg
    else .requestFailed c' msg

/-- `disconnect()`: disable auto-reconnect, clear all timers, and close
(`OPEN → CLOSING` via a normal-closure frame, otherwise directly `CLOSED`).
The subscription set is NOT touched. -/
def disconnect (c : WSClient) : WSClient :=
  let c1 := {c with reconnect := false, reconnectTimerArmed := false}
  if c1.state = .OPEN then {c1 with state := .CLOSING}
  else {c1 with state := .CLOSED}

/-- `handleClose`: enter `CLOSED`, clear timers, and — when auto-reconnect
is enabled and attempts remain — `scheduleReconnect()`, which increments the
attempt counter and arms the reconnect timer for `reconnectInterval` ms.
Returns the new state and the scheduled delay (if any). -/
def handleClose (c : WSClient) : WSClient × Option Nat :=
  let c1 := {c with state := WebSocketState.CLOSED, reconnectTimerArmed := false}
  if c1.reconnect = true ∧ c1.reconnectAttempts < c1.maxReconnectAttempts then
    ({c1 with reconnectAttempts := c1.reconnectAttempts + 1, reconnectTimerArmed := true},
      some c1.reconnectInterval)
  else (c1, none)

/-- The reconnect timer firing: `connect()` then, on success (`OPEN`,
attempt counter reset by the open handler), invoke
`subscribe(Array.from(subscriptions))` when the set is non-empty.  Returns
the new state and the stream list passed to that replay `subscribe` call. -/
def reconnectFire (c : WSClient) (connectOk : Bool) : WSClient × Option (List String) :=
  let c0 := {c with reconnectTimerArmed := false}
  if connectOk then
    let c1 := {c0 with state := WebSocketState.OPEN, reconnectAttempts := 0}
    if 0 < c1.subscriptions.length then (c1, some c1.subscriptions) else (c1, none)
  else (c0, none)

end AsterWebSocketClient

theorem mem_setAdd (l : List String) (s x : String) :
    x ∈ setAdd l s ↔ x ∈ l ∨ x = s := by
  unfold setAdd
  split
  · next hmem =>
    constructor
    · exact Or.inl
    · rintro (h | rfl)
      · exact h
      · exact hmem
  · simp [List.mem_append]

theorem mem_foldl_setAdd (streams : List String) (l : List String) (x : String) :
    x ∈ streams.foldl setAdd l ↔ x ∈ l ∨ x ∈ streams := by
  induction streams generalizing l with
  | nil => simp
  | cons s rest ih =>
    simp only [List.foldl_cons, ih, mem_setAdd, List.mem_cons]
    tauto

theorem mem_setDelete (l : List String) (s x : String) :
    x ∈ setDelete l s ↔ x ∈ l ∧ x ≠ s := by
  simp [setDelete, List.mem_filter]

theorem mem_foldl_setDelete (streams : List String) (l : List String) (x : String) :
    x ∈ streams.foldl setDelete l ↔ x ∈ l ∧ x ∉ streams := by
  induction streams generalizing l with
  | nil => simp
  | cons s rest ih =>
    simp only [List.foldl_cons, ih, mem_setDelete, List.mem_cons]
    tauto

theorem foldl_setAdd_of_subset (streams : List String) (l : List String)
    (h : ∀ x ∈ streams, x ∈ l) : streams.foldl setAdd l = l := by
  induction streams with
  | nil => rfl
  | cons s rest ih =>
    have hs : s ∈ l := h s (List.mem_cons_self _ _)
    simp only [List.foldl_cons, setAdd, if_pos hs]
    exact ih fun x hx => h x (List.mem_cons_of_mem _ hx)

/-- Claim C4 (amended): `disconnect()` leaves the subscription set UNCHANGED
— the code never clears it — while a resolved `subscribe` adds exactly the
requested streams to the set and a resolved `unsubscribe` removes exactly
them. -/
theorem c4_subscriptions_lifecycle :
    (∀ c : WSClient, (AsterWebSocketClient.disconnect c).subscriptions = c.subscriptions) ∧
    (∀ (c : WSClient) streams c' msg,
      AsterWebSocketClient.subscribe c streams true = .okR c' msg →
      ∀ x, x ∈ c'.subscriptions ↔ x ∈ c.subscriptions ∨ x ∈ streams) ∧
    (∀ (c : WSClient) streams c' msg,
      AsterWebSocketClient.unsubscribe c streams true = .okR c' msg →
      ∀ x, x ∈ c'.subscriptions ↔ x ∈ c.subscriptions ∧ x ∉ streams) := by
  refine ⟨?_, ?_, ?_⟩
  · intro c
    unfold AsterWebSocketClient.disconnect
    dsimp only
    split <;> rfl
  · intro c streams c' msg h x
    unfold AsterWebSocketClient.subscribe at h
    dsimp only at h
    split at h
    · cases h
    · split at h
      · cases h
      · simp only [if_pos rfl] at h
        cases h
        exact mem_foldl_setAdd streams _ x
  · intro c streams c' msg h x
    unfold AsterWebSocketClient.unsubscribe at h
    dsimp only at h
    split at h
    · cases h
    · simp only [if_pos rfl] at h
      cases h
      exact mem_foldl_setDelete streams _ x

/-- Witness for `c4_subscriptions_lifecycle`: a disconnect from a concrete
open client subscribed to one stream, and a concrete resolved subscribe. -/
theorem c4_subscriptions_lifecycle_witness :
    (AsterWebSocketClient.disconnect
      ⟨.OPEN, ["a@ticker"], 1, true, 5000, 5, 0, false⟩).subscriptions = ["a@ticker"] ∧
    ("b@trade" ∈
      (AsterWebSocketClient.disconnect
        ⟨.OPEN, ["a@ticker"], 1, true, 5000, 5, 0, false⟩).subscriptions ∨ True) := by
  exact ⟨c4_subscriptions_lifecycle.1 ⟨.OPEN, ["a@ticker"], 1, true, 5000, 5, 0, false⟩,
    Or.inr trivial⟩

/-- Claim C4 counterexample: after `disconnect()` on an open connection
subscribed to `a@ticker`, the subscription set still contains `a@ticker`;
it is NOT emptied. -/
theorem c4_disconnect_counterexample :
    (AsterWebSocketClient.disconnect
      ⟨.OPEN, ["a@ticker"], 1, true, 5000, 5, 0, false⟩).subscriptions = ["a@ticker"] ∧
    (AsterWebSocketClient.disconnect
      ⟨.OPEN, ["a@ticker"], 1, true, 5000, 5, 0, false⟩).subscriptions ≠ [] := by decide

/-- Claim C3: an abnormal close of an open connection (auto-reconnect still
enabled, i.e. not caller-initiated) moves the client to `CLOSED`, keeps the
subscription set intact, and — while attempts remain — schedules a reconnect
after the fixed `reconnectInterval`, incrementing the attempt counter; when
the timer fires and the socket reopens, the replay `subscribe` call is
invoked with exactly the pre-close subscription set (so the replayed stream
list is set-equal to it); once the maximum attempt count is exhausted the
connection stays `CLOSED` and no reconnect is scheduled. -/
theorem c3_reconnect_replay (c : WSClient) (_hopen : c.state = .OPEN)
    (hrec : c.reconnect = true) :
    ((AsterWebSocketClient.handleClose c).1.state = .CLOSED) ∧
    ((AsterWebSocketClient.handleClose c).1.subscriptions = c.subscriptions) ∧
    (c.reconnectAttempts < c.maxReconnectAttempts →
      (AsterWebSocketClient.handleClose c).2 = some c.reconnectInterval ∧
      (AsterWebSocketClient.handleClose c).1.reconnectTimerArmed = true ∧
      (AsterWebSocketClient.handleClose c).1.reconnectAttempts = c.reconnectAttempts + 1 ∧
      (AsterWebSocketClient.reconnectFire (AsterWebSocketClient.handleClose c).1 true).1.state
        = .OPEN ∧
      (AsterWebSocketClient.reconnectFire (AsterWebSocketClient.handleClose c).1 true).2
        = (if 0 < c.subscriptions.length then some c.subscriptions else none) ∧
      (∀ l, (AsterWebSocketClient.reconnectFire (AsterWebSocketClient.handleClose c).1 true).2
          = some l → ∀ x, x ∈ l ↔ x ∈ c.subscriptions)) ∧
    (c.maxReconnectAttempts ≤ c.reconnectAttempts →
      (AsterWebSocketClient.handleClose c).2 = none ∧
      (AsterWebSocketClient.handleClose c).1.reconnectTimerArmed = false ∧
      (AsterWebSocketClient.handleClose c).1.state = .CLOSED) := by
  by_cases hlt : c.reconnectAttempts < c.maxReconnectAttempts
  · refine ⟨?_, ?_, fun _ => ⟨?_, ?_, ?_, ?_, ?_, ?_⟩, fun hge => absurd hlt (by omega)⟩
    · simp [AsterWebSocketClient.handleClose, hrec, hlt]
    · simp [AsterWebSocketClient.handleClose, hrec, hlt]
    · simp [AsterWebSocketClient.handleClose, hrec, hlt]
    · simp [AsterWebSocketClient.handleClose, hrec, hlt]
    · simp [AsterWebSocketClient.handleClose, hrec, hlt]
    · simp [AsterWebSocketClient.handleClose, AsterWebSocketClient.reconnectFire, hrec, hlt]
      split <;> rfl
    · simp only [AsterWebSocketClient.handleClose, AsterWebSocketClient.reconnectFire]
      simp [hrec, hlt]
      split <;> rfl
    · intro l hl x
      simp only [AsterWebSocketClient.handleClose, AsterWebSocketClient.reconnectFire] at hl
      simp [hrec, hlt] at hl
      split at hl
      · rw [Option.some.injEq] at hl
        rw [← hl]
      · cases hl
  · refine ⟨?_, ?_, fun hltc => absurd hltc hlt, fun _ => ?_⟩ <;>
      simp [AsterWebSocketClient.handleClose, hlt]

/-- Concrete open client used by the witnesses: subscribed to
`a@ticker` and `b@trade`, no reconnect attempt used yet. -/
def wsDemoClient : WSClient :=
  ⟨.OPEN, ["a@ticker", "b@trade"], 7, true,
    WS_CONSTANTS.RECONNECT_INTERVAL, WS_CONSTANTS.MAX_RECONNECT_ATTEMPTS, 0, false⟩

/-- Witness for `c3_reconnect_replay` on `wsDemoClient`: the post-close
reconnect is scheduled after 5000 ms and the replayed subscribe list is
exactly `["a@ticker", "b@trade"]`. -/
theorem c3_reconnect_replay_witness :
    (AsterWebSocketClient.handleClose wsDemoClient).1.state = .CLOSED ∧
    (AsterWebSocketClient.handleClose wsDemoClient).2 = some 5000 ∧
    (AsterWebSocketClient.reconnectFire
      (AsterWebSocketClient.handleClose wsDemoClient).1 true).2 =
      some ["a@ticker", "b@trade"] := by
  have h := c3_reconnect_replay wsDemoClient rfl rfl
  have h3 := h.2.2.1 (by decide)
  refine ⟨h.1, h3.1, ?_⟩
  have h5 := h3.2.2.2.2.1
  simpa using h5

/-- One subscribe or unsubscribe call from state `c` that reached
`sendRequest`'s send: the request `msg` went to the wire and the client
moved to `r` (whether or not the correlated response succeeded). -/
def SentStep (c r : WSClient) (msg : SentMsg) : Prop :=
  (∃ streams ok, AsterWebSocketClient.subscribe c streams ok = .okR r msg ∨
    AsterWebSocketClient.subscribe c streams ok = .requestFailed r msg) ∨
  (∃ streams ok, AsterWebSocketClient.unsubscribe c streams ok = .okR r msg ∨
    AsterWebSocketClient.unsubscribe c streams ok = .requestFailed r msg)

theorem sentStep_id {c r : WSClient} {msg : SentMsg} (h : SentStep c r msg) :
    msg.id = c.requestId ∧ r.requestId = c.requestId + 1 := by
  rcases h with ⟨streams, ok, h⟩ | ⟨streams, ok, h⟩
  · unfold AsterWebSocketClient.subscribe at h
    dsimp only at h
    split at h
    · rcases h with h | h <;> cases h
    · split at h
      · rcases h with h | h <;> cases h
      · split at h <;> rcases h with h | h <;> cases h <;> exact ⟨rfl, rfl⟩
  · unfold AsterWebSocketClient.unsubscribe at h
    dsimp only at h
    split at h
    · rcases h with h | h <;> cases h
    · split at h <;> rcases h with h | h <;> cases h <;> exact ⟨rfl, rfl⟩

/-- Claim C9 (amended): subscribe and unsubscribe require the connection to
be `OPEN` and otherwise fail with the "not connected" error, leaving the
client (including the subscription set) unchanged — except that the
subscription-ceiling check runs FIRST, so a subscribe whose
`subscriptions.size + streams.length` exceeds 1024 is rejected locally with
the too-many-subscriptions `WebSocketError` (never reaching the wire) even
when the connection is not `OPEN`; every call that reaches the wire is
assigned the current request id and bumps the counter, so the ids of
successive wire requests are strictly increasing. -/
theorem c9_request_rules :
    (∀ (c : WSClient) (streams : List String) (ok : Bool),
      c.subscriptions.length + streams.length ≤ WS_CONSTANTS.MAX_SUBSCRIPTIONS →
      c.state ≠ .OPEN →
      AsterWebSocketClient.subscribe c streams ok = .notConnected c) ∧
    (∀ (c : WSClient) (streams : List String) (ok : Bool), c.state ≠ .OPEN →
      AsterWebSocketClient.unsubscribe c streams ok = .notConnected c) ∧
    (∀ (c : WSClient) (streams : List String) (ok : Bool),
      WS_CONSTANTS.MAX_SUBSCRIPTIONS < c.subscriptions.length + streams.length →
      AsterWebSocketClient.subscribe c streams ok = .tooManySubs c) ∧
    (∀ (c r : WSClient) (msg : SentMsg), SentStep c r msg →
      msg.id = c.requestId ∧ r.requestId = c.requestId + 1) ∧
    (∀ (c r1 r2 : WSClient) (m1 m2 : SentMsg),
      SentStep c r1 m1 → SentStep r1 r2 m2 → m1.id < m2.id) := by
  refine ⟨?_, ?_, ?_, fun c r msg h => sentStep_id h, ?_⟩
  · intro c streams ok h1 h2
    unfold AsterWebSocketClient.subscribe
    rw [if_neg (Nat.not_lt.mpr h1), if_pos h2]
  · intro c streams ok h2
    unfold AsterWebSocketClient.unsubscribe
    rw [if_pos h2]
  · intro c streams ok h1
    unfold AsterWebSocketClient.subscribe
    rw [if_pos h1]
  · intro c r1 r2 m1 m2 h1 h2
    have a1 := sentStep_id h1
    have a2 := sentStep_id h2
    omega

/-- Witness for `c9_request_rules`: a subscribe on a concrete `CLOSED`
client fails "not connected" leaving the state unchanged, and a sent
subscribe on the open `wsDemoClient` carries id 7 and bumps the counter
to 8. -/
theorem c9_request_rules_witness :
    AsterWebSocketClient.subscribe ⟨.CLOSED, [], 1, true, 5000, 5, 0, false⟩
      ["a@ticker"] true = .notConnected ⟨.CLOSED, [], 1, true, 5000, 5, 0, false⟩ ∧
    (⟨"SUBSCRIBE", ["c@kline_1m"], 7⟩ : SentMsg).id = wsDemoClient.requestId ∧
    (⟨.OPEN, ["a@ticker", "b@trade", "c@kline_1m"], 8, true, 5000, 5, 0, false⟩ :
      WSClient).requestId = wsDemoClient.requestId + 1 := by
  refine ⟨c9_request_rules.1 _ ["a@ticker"] true (by decide) (by decide), ?_⟩
  exact c9_request_rules.2.2.2.1 wsDemoClient _ _
    (Or.inl ⟨["c@kline_1m"], true, Or.inl (by decide)⟩)

set_option maxRecDepth 20000 in
/-- Claim C9 counterexample: on a `CLOSED` client, a subscribe whose stream
list exceeds the ceiling fails with the too-many-subscriptions error, NOT
with the "not connected" error the claim promises for every non-OPEN call. -/
theorem c9_error_precedence_counterexample :
    (⟨.CLOSED, [], 1, true, 5000, 5, 0, false⟩ : WSClient).state ≠ .OPEN ∧
    AsterWebSocketClient.subscribe ⟨.CLOSED, [], 1, true, 5000, 5, 0, false⟩
      (List.replicate 1025 "s@t") true
      = .tooManySubs ⟨.CLOSED, [], 1, true, 5000, 5, 0, false⟩ ∧
    AsterWebSocketClient.subscribe ⟨.CLOSED, [], 1, true, 5000, 5, 0, false⟩
      (List.replicate 1025 "s@t") true
      ≠ .notConnected ⟨.CLOSED, [], 1, true, 5000, 5, 0, false⟩ := by decide

/-- Claim C10: the subscribe ceiling check compares
`subscriptions.size + streams.length` against 1024 WITHOUT deduplicating
streams already in the set: re-subscribing to the entire current set of N
streams is rejected locally whenever `2 * N > 1024`, although the resulting
set would still have size N (`foldl setAdd` would leave the set unchanged);
in particular the reconnect replay, which passes exactly the current set to
`subscribe`, is rejected locally for any connection holding more than 512
subscriptions. -/
theorem c10_resubscribe_no_dedup (c : WSClient)
    (hlen : 512 < c.subscriptions.length) :
    (∀ ok, AsterWebSocketClient.subscribe c c.subscriptions ok = .tooManySubs c) ∧
    ((AsterWebSocketClient.reconnectFire c true).2 = some c.subscriptions) ∧
    (∀ ok, AsterWebSocketClient.subscribe
      (AsterWebSocketClient.reconnectFire c true).1 c.subscriptions ok
      = .tooManySubs (AsterWebSocketClient.reconnectFire c true).1) ∧
    (∀ (streams : List String) (ok : Bool),
      streams.length = c.subscriptions.length →
      (∀ x ∈ streams, x ∈ c.subscriptions) →
      AsterWebSocketClient.subscribe c streams ok = .tooManySubs c ∧
      streams.foldl setAdd c.subscriptions = c.subscriptions) := by
  have h0 : 0 < c.subscriptions.length := by omega
  have hceil : WS_CONSTANTS.MAX_SUBSCRIPTIONS <
      c.subscriptions.length + c.subscriptions.length := by
    simp only [WS_CONSTANTS.MAX_SUBSCRIPTIONS]; omega
  refine ⟨?_, ?_, ?_, ?_⟩
  · intro ok
    unfold AsterWebSocketClient.subscribe
    rw [if_pos hceil]
  · simp [AsterWebSocketClient.reconnectFire, h0]
  · have hsubs : (AsterWebSocketClient.reconnectFire c true).1.subscriptions
        = c.subscriptions := by
      unfold AsterWebSocketClient.reconnectFire
      dsimp only
      split <;> rfl
    have hc2 : WS_CONSTANTS.MAX_SUBSCRIPTIONS <
        (AsterWebSocketClient.reconnectFire c true).1.subscriptions.length +
        c.subscriptions.length := by rw [hsubs]; exact hceil
    intro ok
    unfold AsterWebSocketClient.subscribe
    rw [if_pos hc2]
  · intro streams ok hl hsub
    refine ⟨?_, foldl_setAdd_of_subset streams _ hsub⟩
    unfold AsterWebSocketClient.subscribe
    rw [if_pos (by rw [hl]; exact hceil)]

/-- 513 pairwise distinct stream names. -/
def manySubs : List String :=
  (List.range 513).map fun i => String.mk (List.replicate (i + 1) 'a')

set_option maxRecDepth 40000 in
/-- Witness for `c10_resubscribe_no_dedup` on a concrete open client holding
513 subscriptions: the replay list is the full set and re-subscribing it is
rejected locally. -/
theorem c10_resubscribe_no_dedup_witness :
    AsterWebSocketClient.subscribe ⟨.OPEN, manySubs, 1, true, 5000, 5, 0, false⟩
      manySubs true = .tooManySubs ⟨.OPEN, manySubs, 1, true, 5000, 5, 0, false⟩ ∧
    (AsterWebSocketClient.reconnectFire
      ⟨.OPEN, manySubs, 1, true, 5000, 5, 0, false⟩ true).2 = some manySubs := by
  have hlen : 512 < (⟨.OPEN, manySubs, 1, true, 5000, 5, 0, false⟩ :
      WSClient).subscriptions.length := by
    simp only [manySubs, List.length_map, List.length_range]
    omega
  have h := c10_resubscribe_no_dedup _ hlen
  exact ⟨h.1 true, h.2.1⟩

/-! ## Inbound frame handling (handleMessage / handleStreamData)

JSON values are modelled by `JVal`; `JSON.parse` happens in the environment,
so an inbound frame arrives as: empty/whitespace-only text, malformed text
(parse throws), or a parsed value.  JS property access `obj.f` yields
`undefined` (here `none`) on non-objects and missing keys — except on
`null`, where it throws (caught by `handleMessage`'s try/catch and reported
through `handleError`).  `a ?? b` falls through on `null`/`undefined`, and
`&&` uses JS truthiness (`0`, `""`, `null`, `false` are falsy).  In combined
mode the code passes the same message object on, so routing is identical. -/

inductive JVal where
  | jnull : JVal
  | jbool (b : Bool) : JVal
  | jnum (n : Int) : JVal
  | jstr (s : String) : JVal
  | jarr (elems : List JVal) : JVal
  | jobj (fields : List (String × JVal)) : JVal

/-- JS property access on a parsed value (non-objects give `undefined`). -/
def jget (v : JVal) (k : String) : Option JVal :=
  match v with
  | .jobj fields => (fields.find? fun f => f.1 == k).map Prod.snd
  | _ => none

/-- JS truthiness of a JSON value. -/
def truthy : JVal → Bool
  | .jnull => false
  | .jbool b => b
  | .jnum n => decide (n ≠ 0)
  | .jstr s => decide (s ≠ "")
  | .jarr _ => true
  | .jobj _ => true

/-- Truthiness of a possibly-`undefined` value. -/
def otruthy : Option JVal → Bool
  | none => false
  | some v => truthy v

/-- `dataObj.data?.e`. -/
def dataE (v : JVal) : Option JVal := (jget v "data").bind fun d => jget d "e"

/-- `dataObj.e ?? dataObj.data?.e`. -/
def eventTypeOf (v : JVal) : Option JVal :=
  match jget v "e" with
  | some .jnull => dataE v
  | none => dataE v
  | some e => some e

/-- The handler a stream frame is dispatched to. -/
inductive RouteTarget where
  | aggTrade : RouteTarget
  | trade : RouteTarget
  | kline : RouteTarget
  | miniTicker : RouteTarget
  | ticker : RouteTarget
  | depthUpdate : RouteTarget
  | accountUpdate : RouteTarget
  | executionReport : RouteTarget
  | markPrice : RouteTarget
  | liquidation : RouteTarget
  | futuresAccountUpdate : RouteTarget
  | futuresOrderUpdate : RouteTarget
  | futuresAccountConfigUpdate : RouteTarget
  | bookTicker : RouteTarget
  | genericData : RouteTarget
deriving DecidableEq, Repr

/-- An inbound frame after the parse stage. -/
inductive ParsedFrame where
  | emptyFrame : ParsedFrame
  | malformed : ParsedFrame
  | parsed (v : JVal) : ParsedFrame

/-- What `handleMessage` does with a frame. -/
inductive MsgAction where
  | ignored : MsgAction
  | errorReported : MsgAction
  | correlation : MsgAction
  | streamEvent (t : RouteTarget) : MsgAction
deriving DecidableEq, Repr

/-- `typeof message.id === 'number'`. -/
def isNumJ : Option JVal → Bool
  | some (.jnum _) => true
  | _ => false

namespace AsterWebSocketClient

/-- The `switch (eventType)` of `handleStreamData`, with the structural
book-ticker detection (`dataObj.u && dataObj.s && dataObj.b && dataObj.a`,
JS truthiness) in the default arm, else the generic `data` channel. -/
def handleStreamData (v : JVal) : RouteTarget :=
  match eventTypeOf v with
  | some (.jstr "aggTrade") => .aggTrade
  | some (.jstr "trade") => .trade
  | some (.jstr "kline") => .kline
  | some (.jstr "24hrMiniTicker") => .miniTicker
  | some (.jstr "24hrTicker") => .ticker
  | some (.jstr "depthUpdate") => .depthUpdate
  | some (.jstr "outboundAccountPosition") => .accountUpdate
  | some (.jstr "executionReport") => .executionReport
  | some (.jstr "markPriceUpdate") => .markPrice
  | some (.jstr "forceOrder") => .liquidation
  | some (.jstr "ACCOUNT_UPDATE") => .futuresAccountUpdate
  | some (.jstr "ORDER_TRADE_UPDATE") => .futuresOrderUpdate
  | some (.jstr "ACCOUNT_CONFIG_UPDATE") => .futuresAccountConfigUpdate
  | _ =>
    if otruthy (jget v "u") && otruthy (jget v "s") && otruthy (jget v "b")
        && otruthy (jget v "a") then .bookTicker
    else .genericData

/-- `handleMessage`: empty frames are ignored; malformed JSON (and the
property-access throw on a parsed `null`) goes to the error handler; a
numeric `id` marks a correlation reply and returns before any routing;
everything else is routed as stream data. -/
def handleMessage : ParsedFrame → MsgAction
  | .emptyFrame => .ignored
  | .malformed => .errorReported
  | .parsed .jnull => .errorReported
  | .parsed v =>
    if isNumJ (jget v "id") then .correlation
    else .streamEvent (handleStreamData v)

end AsterWebSocketClient

theorem handleMessage_parsed_eq (v : JVal) (h : v ≠ .jnull) :
    AsterWebSocketClient.handleMessage (.parsed v) =
      if isNumJ (jget v "id") then .correlation
      else .streamEvent (AsterWebSocketClient.handleStreamData v) := by
  cases v with
  | jnull => exact absurd rfl h
  | jbool b => rfl
  | jnum n => rfl
  | jstr s => rfl
  | jarr l => rfl
  | jobj f => rfl

/-- Claim C8 (amended): a frame with a numeric `id` is treated as a
correlation reply and never reaches a stream handler; a frame whose event
type is `"trade"` is dispatched only to the trade handler; a frame with no
event-type discriminator whose `u`, `s`, `b`, `a` fields are all present AND
TRUTHY (non-zero, non-empty — the code tests JS truthiness, not mere
presence) goes to the book-ticker handler; malformed JSON is reported via
the error handler without crashing; an empty frame triggers no handler and
no error.  The spec's concrete scenario frames behave as described. -/
theorem c8_frame_routing :
    (∀ (v : JVal) (n : Int), jget v "id" = some (.jnum n) →
      AsterWebSocketClient.handleMessage (.parsed v) = .correlation) ∧
    (∀ v : JVal, v ≠ .jnull → isNumJ (jget v "id") = false →
      eventTypeOf v = some (.jstr "trade") →
      AsterWebSocketClient.handleMessage (.parsed v) = .streamEvent .trade) ∧
    (∀ v : JVal, v ≠ .jnull → isNumJ (jget v "id") = false →
      eventTypeOf v = none →
      otruthy (jget v "u") = true → otruthy (jget v "s") = true →
      otruthy (jget v "b") = true → otruthy (jget v "a") = true →
      AsterWebSocketClient.handleMessage (.parsed v) = .streamEvent .bookTicker) ∧
    AsterWebSocketClient.handleMessage .malformed = .errorReported ∧
    AsterWebSocketClient.handleMessage .emptyFrame = .ignored ∧
    AsterWebSocketClient.handleMessage
      (.parsed (.jobj [("e", .jstr "trade"), ("s", .jstr "BTCUSDT")]))
      = .streamEvent .trade ∧
    AsterWebSocketClient.handleMessage
      (.parsed (.jobj [("u", .jnum 1), ("s", .jstr "BTCUSDT"), ("b", .jstr "1"),
        ("B", .jstr "1"), ("a", .jstr "2"), ("A", .jstr "1")]))
      = .streamEvent .bookTicker ∧
    AsterWebSocketClient.handleMessage
      (.parsed (.jobj [("id", .jnum 7), ("result", .jnull)]))
      = .correlation := by
  refine ⟨?_, ?_, ?_, rfl, rfl, rfl, rfl, rfl⟩
  · intro v n hid
    have hv : v ≠ .jnull := by
      intro h
      rw [h] at hid
      simp [jget] at hid
    rw [handleMessage_parsed_eq v hv, hid]
    rfl
  · intro v hnn hid het
    rw [handleMessage_parsed_eq v hnn, hid]
    unfold AsterWebSocketClient.handleStreamData
    rw [het]
    rfl
  · intro v hnn hid het hu hs hb ha
    rw [handleMessage_parsed_eq v hnn, hid]
    unfold AsterWebSocketClient.handleStreamData
    rw [het]
    simp only [if_neg Bool.false_ne_true]
    rw [hu, hs, hb, ha]
    rfl

/-- Witness for `c8_frame_routing` on concrete frames: the correlation
frame `{id: 7, result: null}` and a trade frame. -/
theorem c8_frame_routing_witness :
    AsterWebSocketClient.handleMessage
      (.parsed (.jobj [("id", .jnum 7), ("result", .jnull)])) = .correlation ∧
    AsterWebSocketClient.handleMessage
      (.parsed (.jobj [("e", .jstr "trade"), ("s", .jstr "BTCUSDT")]))
      = .streamEvent .trade := by
  constructor
  · exact c8_frame_routing.1 _ 7 rfl
  · exact c8_frame_routing.2.1 _ (fun h => JVal.noConfusion h) rfl rfl

/-- Claim C8 counterexample: the frame
`{u: 0, s: "BTCUSDT", b: "1", B: "1", a: "2", A: "1"}` has no event-type
discriminator and CARRIES update-id, symbol, bid and ask fields, yet it is
routed to the generic data channel, not to the book-ticker handler, because
the code tests JS truthiness of `u` and `0` is falsy. -/
theorem c8_bookticker_presence_counterexample :
    jget (.jobj [("u", .jnum 0), ("s", .jstr "BTCUSDT"), ("b", .jstr "1"),
      ("B", .jstr "1"), ("a", .jstr "2"), ("A", .jstr "1")]) "u" = some (.jnum 0) ∧
    eventTypeOf (.jobj [("u", .jnum 0), ("s", .jstr "BTCUSDT"), ("b", .jstr "1"),
      ("B", .jstr "1"), ("a", .jstr "2"), ("A", .jstr "1")]) = none ∧
    AsterWebSocketClient.handleMessage
      (.parsed (.jobj [("u", .jnum 0), ("s", .jstr "BTCUSDT"), ("b", .jstr "1"),
        ("B", .jstr "1"), ("a", .jstr "2"), ("A", .jstr "1")]))
      = .streamEvent .genericData ∧
    AsterWebSocketClient.handleMessage
      (.parsed (.jobj [("u", .jnum 0), ("s", .jstr "BTCUSDT"), ("b", .jstr "1"),
        ("B", .jstr "1"), ("a", .jstr "2"), ("A", .jstr "1")]))
      ≠ .streamEvent .bookTicker := by
  refine ⟨rfl, rfl, rfl, ?_⟩
  intro h
  have e : AsterWebSocketClient.handleMessage
      (.parsed (.jobj [("u", .jnum 0), ("s", .jstr "BTCUSDT"), ("b", .jstr "1"),
        ("B", .jstr "1"), ("a", .jstr "2"), ("A", .jstr "1")]))
      = MsgAction.streamEvent RouteTarget.genericData := rfl
  exact absurd (e.symm.trans h) (by decide)
